import Mathlib

/-!
Verification of the chess-coach live-analysis client.

The development embeds the two core components of the repository:

* the Connection Manager (class AnalysisWebSocket and the helper
  analyzePosition in the api module), modelled as a record of the
  instance fields together with one Lean function per method and per
  registered event handler; scheduled reconnection timers are made
  explicit as the list of their delays, and observable effects of
  analyze (messages sent on the channel, requests issued on the HTTP
  fallback path, invocations of the onAnalysis callback) are returned
  alongside the successor state;

* the Navigation Engine (component ChessCoach), modelled as a record of
  the React state hooks together with one Lean function per handler
  (loadGame, goToMove, goToNextMove, goToPreviousMove, bestMoveToArrow,
  and the arrows effect). The external rules engine (chess.js) is a
  black box: a game value is represented by the sequence of moves that
  has been applied to it since the initial position, and the transcript
  parser is an oracle parameter.

JSON payloads are modelled structurally as association lists of keys to
values, which keeps the wire shape (key names, presence of fields)
bit-exact while abstracting from whitespace of the serialized text.
-/

/-! ## JSON values -/

/-- A JSON value as used by the wire contract of this client: only
strings and (non-negative integral) numbers occur in outgoing payloads. -/
inductive JsonVal
  | str (s : String)
  | num (n : Nat)
deriving DecidableEq, Repr

/-- A JSON object, as an association list from keys to values. -/
abbrev JsonObj := List (String × JsonVal)

/-! ## Connection Manager: data model -/

/-- The readyState values of a browser WebSocket handle. -/
inductive ReadyState
  | connecting
  | opened
  | closing
  | closed
deriving DecidableEq, Repr

/-- The instance fields of class AnalysisWebSocket.  The field ws is
none when the JS field is null, otherwise it records the readyState of
the current handle.  The field pendingReconnects lists the delays, in
milliseconds, of the reconnection timers that have been scheduled via
setTimeout and have neither fired nor been cancelled; the source keeps
no handle to these timers. -/
structure AnalysisWebSocket where
  ws : Option ReadyState
  connected : Bool
  reconnectAttempts : Nat
  pendingReconnects : List Nat
deriving DecidableEq, Repr

/-- The constant this.maxReconnectAttempts set in the constructor. -/
def maxReconnectAttempts : Nat := 5

/-- The fixed delay, in milliseconds, passed to setTimeout in
tryReconnect. -/
def reconnectDelayMs : Nat := 2000

/-- The state right after the constructor runs: null handle, not
connected, zero reconnection attempts, no timer scheduled. -/
def AnalysisWebSocket.init : AnalysisWebSocket :=
  { ws := none, connected := false, reconnectAttempts := 0, pendingReconnects := [] }

/-- The analysis results delivered by the remote service.  The numeric
evaluation is opaque to every claim considered here, so its float type
is represented by Int; best_move is the coordinate move string. -/
structure AnalysisResult where
  evaluation : Int
  is_mate : Bool
  mate_in : Int
  best_move : String
deriving DecidableEq, Repr

/-! ## Connection Manager: methods and handlers -/

/-- Method tryReconnect: when the attempt counter is below the maximum,
increment it and schedule connect after the fixed delay; otherwise do
nothing. -/
def tryReconnect (s : AnalysisWebSocket) : AnalysisWebSocket :=
  if s.reconnectAttempts < maxReconnectAttempts then
    { s with reconnectAttempts := s.reconnectAttempts + 1,
             pendingReconnects := s.pendingReconnects ++ [reconnectDelayMs] }
  else s

/-- A close event on the channel: the handle reaches readyState closed
and the registered onclose handler runs, which clears the connected
flag and calls tryReconnect. -/
def oncloseEvent (s : AnalysisWebSocket) : AnalysisWebSocket :=
  tryReconnect { s with ws := some ReadyState.closed, connected := false }

/-- A successful open event on the channel: the handle reaches
readyState opened and the registered onopen handler runs, which sets
the connected flag and resets the attempt counter to zero. -/
def onopenEvent (s : AnalysisWebSocket) : AnalysisWebSocket :=
  { s with ws := some ReadyState.opened, connected := true, reconnectAttempts := 0 }

/-- The effect of calling close on a WebSocket handle: a connecting or
open handle starts closing, a closing or closed handle is unaffected. -/
def wsClose : ReadyState → ReadyState
  | ReadyState.connecting => ReadyState.closing
  | ReadyState.opened => ReadyState.closing
  | ReadyState.closing => ReadyState.closing
  | ReadyState.closed => ReadyState.closed

/-- Method disconnect: when a handle exists, call close on it (the
close event for a handle that was not already closed is delivered
separately, see oncloseEvent) and clear the connected flag; when the
handle is null, do nothing.  No timer is touched: the source stores no
handle to its setTimeout timers. -/
def disconnect (s : AnalysisWebSocket) : AnalysisWebSocket :=
  match s.ws with
  | some rs => { s with ws := some (wsClose rs), connected := false }
  | none => s

/-- The request body built by the helper analyzePosition:
JSON.stringify of the object with fields fen and depth. -/
def analyzePositionBody (fen : String) (depth : Nat) : JsonObj :=
  [("fen", JsonVal.str fen), ("depth", JsonVal.num depth)]

/-- The default value of the depth parameter of analyzePosition. -/
def defaultDepth : Nat := 20

/-- JS truthiness test on an optional string: undefined, null and the
empty string are falsy. -/
def strFalsy : Option String → Bool
  | none => true
  | some s => s == ""

/-- The observable outcome of a call into the manager: the successor
state, the serialized messages sent over the channel, the request
bodies issued on the HTTP fallback path, and the results passed to the
onAnalysis callback by the fallback path. -/
structure AnalyzeOutcome where
  state : AnalysisWebSocket
  wsSent : List JsonObj
  httpSent : List JsonObj
  callbacks : List AnalysisResult
deriving DecidableEq, Repr

/-- Method fallbackToHttp: return at once on a falsy argument;
otherwise issue one analyzePosition request with the default depth,
and on a successful response pass the result to onAnalysis (on failure
the error is only logged).  The HTTP exchange is the oracle http. -/
def fallbackToHttp (s : AnalysisWebSocket) (fen : Option String)
    (http : JsonObj → Option AnalysisResult) : AnalyzeOutcome :=
  match fen with
  | none => ⟨s, [], [], []⟩
  | some f =>
    if f == "" then ⟨s, [], [], []⟩
    else
      match http (analyzePositionBody f defaultDepth) with
      | some r => ⟨s, [], [analyzePositionBody f defaultDepth], [r]⟩
      | none => ⟨s, [], [analyzePositionBody f defaultDepth], []⟩

/-- Method analyze: return at once on a falsy argument; when the handle
exists and its readyState is OPEN, send the serialized object with the
single field fen over the channel; otherwise call fallbackToHttp. -/
def analyze (s : AnalysisWebSocket) (fen : Option String)
    (http : JsonObj → Option AnalysisResult) : AnalyzeOutcome :=
  match fen with
  | none => ⟨s, [], [], []⟩
  | some f =>
    if f == "" then ⟨s, [], [], []⟩
    else if s.ws = some ReadyState.opened then
      ⟨s, [[("fen", JsonVal.str f)]], [], []⟩
    else
      fallbackToHttp s (some f) http

/-! ## Navigation Engine: data model -/

/-- A verbose move record as produced by the rules-engine parser:
origin and destination squares, an optional promotion piece, and the
algebraic name of the move. -/
structure Move where
  origin : String
  dest : String
  promotion : Option String
  san : String
deriving DecidableEq, Repr

/-- A rules-engine game object, viewed as a black box: its state is the
sequence of moves applied to it since the initial position.  Two game
values are equal exactly when the same moves were applied in the same
order, so every function of the underlying engine state agrees on
equal values. -/
structure ChessGame where
  applied : List Move
deriving DecidableEq, Repr

/-- A freshly constructed game: the fixed initial position. -/
def ChessGame.new : ChessGame := ⟨[]⟩

/-- An arrow drawn on the board: origin square, destination square,
colour. -/
abbrev Arrow := String × String × String

/-- The React state hooks of the ChessCoach component that the
navigation handlers read or write. -/
structure CoachState where
  game : ChessGame
  moveHistory : List String
  analysis : Option AnalysisResult
  showBestMove : Bool
  currentMoveIndex : Int
  moves : List Move
  isReviewMode : Bool
  pgnInput : String
  errorMessage : String
deriving DecidableEq, Repr

/-! ## Navigation Engine: handlers -/

/-- Handler loadGame: parse the PGN input with the external rules
engine (the oracle parsePgn; none models the exception thrown by
loadPgn on malformed text).  On failure, set the error message and
nothing else.  On success, reset the board to a fresh game, store the
parsed history as the move list, set the move index to 0, enter review
mode, clear the error message, and replace the move history with the
algebraic names of the parsed moves. -/
def loadGame (s : CoachState) (parsePgn : String → Option (List Move)) : CoachState :=
  match parsePgn s.pgnInput with
  | none =>
    { s with errorMessage := "Invalid PGN format. Please check your input" }
  | some history =>
    { s with game := ChessGame.new,
             moves := history,
             currentMoveIndex := 0,
             isReviewMode := true,
             errorMessage := "",
             moveHistory := history.map Move.san }

/-- Handler goToMove: build a fresh game and apply moves i for
0 ≤ i ≤ index and i < moves.length — when index + 1 exceeds the list
length the loop stops at the end of the list, and when index is
negative the loop body never runs, so the applied moves are the first
(index + 1).toNat elements.  Store the argument index itself as the new
move index and hide the best-move arrow. -/
def goToMove (s : CoachState) (index : Int) : CoachState :=
  { s with game := ⟨s.moves.take (index + 1).toNat⟩,
           currentMoveIndex := index,
           showBestMove := false }

/-- Handler goToNextMove: advance by one via goToMove when more moves
remain, otherwise do nothing. -/
def goToNextMove (s : CoachState) : CoachState :=
  if s.currentMoveIndex < (s.moves.length : Int) - 1 then
    goToMove s (s.currentMoveIndex + 1)
  else s

/-- Handler goToPreviousMove: go back by one via goToMove when the
index is positive, otherwise do nothing. -/
def goToPreviousMove (s : CoachState) : CoachState :=
  if s.currentMoveIndex > 0 then
    goToMove s (s.currentMoveIndex - 1)
  else s

/-- The colour string used for every best-move arrow. -/
def arrowColor : String := "rgb(0, 128, 255)"

/-- Function bestMoveToArrow: a falsy or shorter-than-four-character
string yields no arrow; the four castling coordinate strings are
special-cased to the visual movement of the king; any other string
yields the pair of its substrings at character ranges 0..2 and 2..4. -/
def bestMoveToArrow (move : Option String) : List Arrow :=
  match move with
  | none => []
  | some m =>
    if m.length < 4 then []
    else if m = "e1g1" then [("e1", "g1", arrowColor)]
    else if m = "e1c1" then [("e1", "c1", arrowColor)]
    else if m = "e8g8" then [("e8", "g8", arrowColor)]
    else if m = "e8c8" then [("e8", "c8", arrowColor)]
    else [(m.take 2, (m.drop 2).take 2, arrowColor)]

/-- The arrows effect of the component: whenever showBestMove, a
current analysis and a truthy best_move are all present, the displayed
arrows are bestMoveToArrow of the best move; in every other case the
arrows are cleared. -/
def arrowsEffect (showBest : Bool) (analysis : Option AnalysisResult) : List Arrow :=
  match showBest, analysis with
  | true, some a => if a.best_move == "" then [] else bestMoveToArrow (some a.best_move)
  | _, _ => []

/-! ## Concrete fixtures used by counterexamples and witnesses -/

/-- A manager state whose channel is open and which has no pending
timer and a zero attempt counter: the state right after a first
successful connect. -/
def wsOpenState : AnalysisWebSocket :=
  { ws := some ReadyState.opened, connected := true,
    reconnectAttempts := 0, pendingReconnects := [] }

/-- A manager state with an open channel and one pending reconnection
timer: reached when the host calls connect while a scheduled
reconnection has not fired yet and the new channel opens within the
delay. -/
def wsOpenPending : AnalysisWebSocket :=
  { ws := some ReadyState.opened, connected := true,
    reconnectAttempts := 0, pendingReconnects := [reconnectDelayMs] }

/-- A sample analysis result. -/
def sampleResult : AnalysisResult :=
  { evaluation := 0, is_mate := false, mate_in := 0, best_move := "e2e4" }

/-- The verbose record of the move e2 to e4. -/
def mvE4 : Move := { origin := "e2", dest := "e4", promotion := none, san := "e4" }

/-- A component state in review mode holding a one-move list with the
cursor at the start-of-game sentinel. -/
def csOne : CoachState :=
  { game := ChessGame.new, moveHistory := [], analysis := none, showBestMove := true,
    currentMoveIndex := -1, moves := [mvE4], isReviewMode := true,
    pgnInput := "1. e4", errorMessage := "" }

/-! ## Helper lemmas -/

/-- One close event changes the attempt counter exactly when it is
below the maximum. -/
theorem oncloseEvent_reconnectAttempts (u : AnalysisWebSocket) :
    (oncloseEvent u).reconnectAttempts =
      if u.reconnectAttempts < maxReconnectAttempts then u.reconnectAttempts + 1
      else u.reconnectAttempts := by
  unfold oncloseEvent tryReconnect
  split <;> rfl

/-- One close event appends one scheduled delay exactly when the
attempt counter is below the maximum. -/
theorem oncloseEvent_pendingReconnects (u : AnalysisWebSocket) :
    (oncloseEvent u).pendingReconnects =
      if u.reconnectAttempts < maxReconnectAttempts then u.pendingReconnects ++ [reconnectDelayMs]
      else u.pendingReconnects := by
  unfold oncloseEvent tryReconnect
  split <;> rfl

/-! ## Claim C1 -/

/-- Claim C1, counterexample: from a reachable state with an open
channel and one pending reconnection timer, disconnect leaves the
timer pending rather than cancelling it, and the close event delivered
for the closed channel schedules a second reconnection; so after
disconnect an automatic reconnection is still scheduled. -/
theorem C1_counterexample :
    (disconnect wsOpenPending).pendingReconnects = [reconnectDelayMs] ∧
    (oncloseEvent (disconnect wsOpenPending)).pendingReconnects
      = [reconnectDelayMs, reconnectDelayMs] := by
  decide

/-- Claim C1, amended: disconnect on a state with an open channel
closes the channel and clears the connected flag, but cancels no
pending reconnection timer, and the close event subsequently delivered
for the closed channel schedules one more reconnection whenever the
attempt counter is below the maximum. -/
theorem C1_amended (s : AnalysisWebSocket) (h : s.ws = some ReadyState.opened) :
    disconnect s = { s with ws := some ReadyState.closing, connected := false } ∧
    (disconnect s).pendingReconnects = s.pendingReconnects ∧
    (s.reconnectAttempts < maxReconnectAttempts →
      (oncloseEvent (disconnect s)).pendingReconnects
        = s.pendingReconnects ++ [reconnectDelayMs]) := by
  refine ⟨?_, ?_, ?_⟩
  · simp [disconnect, h, wsClose]
  · simp [disconnect, h, wsClose]
  · intro hlt
    simp [disconnect, h, wsClose, oncloseEvent, tryReconnect, hlt]

/-- Witness for C1_amended at the open zero-attempt state. -/
theorem C1_amended_witness :
    wsOpenState.ws = some ReadyState.opened ∧
    wsOpenState.reconnectAttempts < maxReconnectAttempts ∧
    (oncloseEvent (disconnect wsOpenState)).pendingReconnects
      = wsOpenState.pendingReconnects ++ [reconnectDelayMs] :=
  ⟨rfl, by decide, (C1_amended wsOpenState rfl).2.2 (by decide)⟩

/-! ## Claim C2 -/

/-- Claim C2: the delay of a scheduled reconnection is the fixed
2000ms; a close event schedules a reconnection and increments the
attempt counter exactly when the counter is below
maxReconnectAttempts = 5, and otherwise only records the closure; a
successful open resets the counter to zero; five consecutive closures
from a zero counter drive the counter to five, after which a further
closure schedules nothing. -/
theorem C2_reconnection_bounded (s t u : AnalysisWebSocket) (h : s.reconnectAttempts = 0) :
    reconnectDelayMs = 2000 ∧
    (u.reconnectAttempts < maxReconnectAttempts →
       (oncloseEvent u).pendingReconnects = u.pendingReconnects ++ [reconnectDelayMs] ∧
       (oncloseEvent u).reconnectAttempts = u.reconnectAttempts + 1) ∧
    (¬ u.reconnectAttempts < maxReconnectAttempts →
       oncloseEvent u = { u with ws := some ReadyState.closed, connected := false }) ∧
    (onopenEvent t).reconnectAttempts = 0 ∧
    (oncloseEvent (oncloseEvent (oncloseEvent (oncloseEvent (oncloseEvent s))))).reconnectAttempts
      = 5 ∧
    (oncloseEvent (oncloseEvent (oncloseEvent (oncloseEvent (oncloseEvent
        (oncloseEvent s)))))).pendingReconnects
      = (oncloseEvent (oncloseEvent (oncloseEvent (oncloseEvent
          (oncloseEvent s))))).pendingReconnects := by
  have h1 : (oncloseEvent s).reconnectAttempts = 1 := by
    rw [oncloseEvent_reconnectAttempts, h]; decide
  have h2 : (oncloseEvent (oncloseEvent s)).reconnectAttempts = 2 := by
    rw [oncloseEvent_reconnectAttempts, h1]; decide
  have h3 : (oncloseEvent (oncloseEvent (oncloseEvent s))).reconnectAttempts = 3 := by
    rw [oncloseEvent_reconnectAttempts, h2]; decide
  have h4 : (oncloseEvent (oncloseEvent (oncloseEvent (oncloseEvent s)))).reconnectAttempts = 4 := by
    rw [oncloseEvent_reconnectAttempts, h3]; decide
  have h5 : (oncloseEvent (oncloseEvent (oncloseEvent (oncloseEvent
      (oncloseEvent s))))).reconnectAttempts = 5 := by
    rw [oncloseEvent_reconnectAttempts, h4]; decide
  refine ⟨rfl, ?_, ?_, rfl, h5, ?_⟩
  · intro hlt
    simp [oncloseEvent, tryReconnect, hlt]
  · intro hge
    simp [oncloseEvent, tryReconnect, hge]
  · rw [oncloseEvent_pendingReconnects, h5, if_neg (by decide)]

/-- Witness for C2_reconnection_bounded at the freshly constructed
manager state. -/
theorem C2_reconnection_bounded_witness :
    AnalysisWebSocket.init.reconnectAttempts = 0 ∧
    (oncloseEvent AnalysisWebSocket.init).pendingReconnects
      = AnalysisWebSocket.init.pendingReconnects ++ [reconnectDelayMs] ∧
    (oncloseEvent (oncloseEvent (oncloseEvent (oncloseEvent
        (oncloseEvent AnalysisWebSocket.init))))).reconnectAttempts = 5 := by
  have h := C2_reconnection_bounded AnalysisWebSocket.init AnalysisWebSocket.init
    AnalysisWebSocket.init rfl
  exact ⟨rfl, (h.2.1 (by decide)).1, h.2.2.2.2.1⟩

/-! ## Claim C3 -/

/-- Claim C3: for a non-empty position string, analyze with the
channel handle present and in the OPEN readyState sends exactly one
serialized message over the channel, issues no fallback request and
invokes no fallback callback; in every other channel state it sends
nothing on the channel, issues exactly one fallback request, and the
fallback response is delivered through the same onAnalysis callback. -/
theorem C3_analyze_paths (s : AnalysisWebSocket) (f : String)
    (http : JsonObj → Option AnalysisResult) (hf : f ≠ "") :
    (s.ws = some ReadyState.opened →
       analyze s (some f) http = ⟨s, [[("fen", JsonVal.str f)]], [], []⟩) ∧
    (s.ws ≠ some ReadyState.opened →
       (analyze s (some f) http).wsSent = [] ∧
       (analyze s (some f) http).httpSent = [analyzePositionBody f defaultDepth] ∧
       ∀ r, http (analyzePositionBody f defaultDepth) = some r →
         (analyze s (some f) http).callbacks = [r]) := by
  constructor
  · intro hws
    simp [analyze, hf, hws]
  · intro hws
    have hb : (f == "") = false := by simp [hf]
    refine ⟨?_, ?_, ?_⟩
    · simp [analyze, hb, hws, fallbackToHttp]
      cases http (analyzePositionBody f defaultDepth) <;> simp
    · simp [analyze, hb, hws, fallbackToHttp]
      cases http (analyzePositionBody f defaultDepth) <;> simp
    · intro r hr
      simp [analyze, hb, hws, fallbackToHttp, hr]

/-- Witness for C3_analyze_paths: the open state sends on the channel;
the fresh (disconnected) state falls back and the response reaches the
callback. -/
theorem C3_analyze_paths_witness :
    ("p" : String) ≠ "" ∧
    analyze wsOpenState (some "p") (fun _ => none)
      = ⟨wsOpenState, [[("fen", JsonVal.str "p")]], [], []⟩ ∧
    (analyze AnalysisWebSocket.init (some "p") (fun _ => some sampleResult)).callbacks
      = [sampleResult] := by
  refine ⟨by decide, ?_, ?_⟩
  · exact (C3_analyze_paths wsOpenState "p" (fun _ => none) (by decide)).1 rfl
  · exact ((C3_analyze_paths AnalysisWebSocket.init "p" (fun _ => some sampleResult)
      (by decide)).2 (by decide)).2.2 sampleResult rfl

/-! ## Claim C4 -/

/-- Claim C4, counterexample: the single message sent over the channel
for position x carries the position under the key fen, not under the
key position. -/
theorem C4_counterexample :
    ((analyze wsOpenState (some "x") (fun _ => none)).wsSent.map
        (List.map Prod.fst)) = [["fen"]] ∧
    ("fen" : String) ≠ "position" := by
  decide

/-- Claim C4, amended: every message sent over the channel by analyze
is the JSON object with the single field fen holding the board string
and no depth field, while the request body of the fallback path
additionally carries a depth field whose default value is 20. -/
theorem C4_amended (s : AnalysisWebSocket) (f : String)
    (http : JsonObj → Option AnalysisResult)
    (hf : f ≠ "") (hws : s.ws = some ReadyState.opened) :
    (analyze s (some f) http).wsSent = [[("fen", JsonVal.str f)]] ∧
    (analyze s (some f) http).wsSent.map (List.map Prod.fst) = [["fen"]] ∧
    analyzePositionBody f defaultDepth = [("fen", JsonVal.str f), ("depth", JsonVal.num 20)] := by
  refine ⟨?_, ?_, rfl⟩ <;> simp [analyze, hf, hws]

/-- Witness for C4_amended at the open state and position b. -/
theorem C4_amended_witness :
    ("b" : String) ≠ "" ∧
    wsOpenState.ws = some ReadyState.opened ∧
    (analyze wsOpenState (some "b") (fun _ => none)).wsSent = [[("fen", JsonVal.str "b")]] ∧
    analyzePositionBody "b" defaultDepth
      = [("fen", JsonVal.str "b"), ("depth", JsonVal.num 20)] := by
  have h := C4_amended wsOpenState "b" (fun _ => none) (by decide) rfl
  exact ⟨by decide, rfl, h.1, h.2.2⟩

/-! ## Claim C5 -/

/-- Claim C5, counterexample: a successful load sets the move index to
0, not to the start-of-game sentinel -1 of the data model. -/
theorem C5_counterexample :
    (loadGame csOne (fun _ => some [mvE4])).currentMoveIndex = 0 ∧
    ¬ ((0 : Int) = -1) := by
  decide

/-- Claim C5, amended: on malformed input loadGame sets only the error
message, leaving board, move list, move index and move history
untouched; on success it resets the board to the initial position,
sets the move index to 0 (not to the -1 sentinel), enters review mode,
clears the error message, and replaces any move history accumulated
via direct play with the history of the parsed transcript. -/
theorem C5_amended (s : CoachState) (parsePgn : String → Option (List Move)) :
    (parsePgn s.pgnInput = none →
       (loadGame s parsePgn).errorMessage = "Invalid PGN format. Please check your input" ∧
       (loadGame s parsePgn).game = s.game ∧
       (loadGame s parsePgn).moves = s.moves ∧
       (loadGame s parsePgn).currentMoveIndex = s.currentMoveIndex ∧
       (loadGame s parsePgn).moveHistory = s.moveHistory) ∧
    (∀ h, parsePgn s.pgnInput = some h →
       loadGame s parsePgn =
         { s with game := ChessGame.new, moves := h, currentMoveIndex := 0,
                  isReviewMode := true, errorMessage := "",
                  moveHistory := h.map Move.san }) := by
  constructor
  · intro hp
    simp [loadGame, hp]
  · intro h hp
    simp [loadGame, hp]

/-- Witness for C5_amended: a failing parse leaves the move list in
place, a succeeding parse installs the transcript. -/
theorem C5_amended_witness :
    (loadGame csOne (fun _ => none)).moves = csOne.moves ∧
    loadGame csOne (fun _ => some [mvE4])
      = { csOne with game := ChessGame.new, moves := [mvE4], currentMoveIndex := 0,
                     isReviewMode := true, errorMessage := "",
                     moveHistory := [mvE4].map Move.san } := by
  refine ⟨((C5_amended csOne (fun _ => none)).1 rfl).2.2.1, ?_⟩
  exact (C5_amended csOne (fun _ => some [mvE4])).2 [mvE4] rfl

/-! ## Claim C6 -/

/-- Claim C6, counterexample: from a state with a one-element move
list, goToMove 5 stores the out-of-range argument 5 as the cursor, so
the invariant cursor < length of the move list fails after a
navigation operation. -/
theorem C6_counterexample :
    (goToMove csOne 5).currentMoveIndex = 5 ∧
    ¬ ((goToMove csOne 5).currentMoveIndex < ((goToMove csOne 5).moves.length : Int)) := by
  decide

/-- Claim C6, amended: goToMove stores its raw argument as the cursor
rather than clamping it, so out-of-range arguments violate the cursor
bounds; the reconstructed board, however, is always the clamped prefix
of the move list; and goToNextMove and goToPreviousMove preserve the
bounds -1 less-or-equal cursor less-than length whenever they held
before the call. -/
theorem C6_amended (s : CoachState) (i : Int)
    (hlo : -1 ≤ s.currentMoveIndex) (hhi : s.currentMoveIndex < (s.moves.length : Int)) :
    (goToMove s i).currentMoveIndex = i ∧
    (goToMove s i).game.applied = s.moves.take (i + 1).toNat ∧
    (-1 ≤ (goToNextMove s).currentMoveIndex ∧
       (goToNextMove s).currentMoveIndex < ((goToNextMove s).moves.length : Int)) ∧
    (-1 ≤ (goToPreviousMove s).currentMoveIndex ∧
       (goToPreviousMove s).currentMoveIndex < ((goToPreviousMove s).moves.length : Int)) := by
  refine ⟨rfl, rfl, ?_, ?_⟩
  · by_cases h : s.currentMoveIndex < (s.moves.length : Int) - 1
    · simp only [goToNextMove, if_pos h, goToMove]
      omega
    · simp only [goToNextMove, if_neg h]
      omega
  · by_cases h : s.currentMoveIndex > 0
    · simp only [goToPreviousMove, if_pos h, goToMove]
      omega
    · simp only [goToPreviousMove, if_neg h]
      omega

/-- Witness for C6_amended at the one-move review state and index 2. -/
theorem C6_amended_witness :
    -1 ≤ csOne.currentMoveIndex ∧
    csOne.currentMoveIndex < (csOne.moves.length : Int) ∧
    (goToMove csOne 2).currentMoveIndex = 2 ∧
    (goToMove csOne 2).game.applied = csOne.moves.take (((2 : Int) + 1).toNat) := by
  have h := C6_amended csOne 2 (by decide) (by decide)
  exact ⟨by decide, by decide, h.1, h.2.1⟩

/-! ## Claim C7 -/

/-- Claim C7: for every index in the valid range, goToMove applied
twice with the same index yields the same board as applying it once:
each call reconstructs the board by a full replay of the clamped
prefix of the move list from the fixed initial position, independent
of the cursor value before the call. -/
theorem C7_goto_idempotent (s : CoachState) (i : Int)
    (hlo : -1 ≤ i) (hhi : i < (s.moves.length : Int)) :
    (goToMove (goToMove s i) i).game = (goToMove s i).game ∧
    (goToMove s i).game = ⟨s.moves.take (i + 1).toNat⟩ :=
  ⟨rfl, rfl⟩

/-- Witness for C7_goto_idempotent at the one-move review state and
index 0. -/
theorem C7_goto_idempotent_witness :
    (-1 : Int) ≤ 0 ∧ (0 : Int) < (csOne.moves.length : Int) ∧
    (goToMove (goToMove csOne 0) 0).game = (goToMove csOne 0).game :=
  ⟨by decide, by decide, (C7_goto_idempotent csOne 0 (by decide) (by decide)).1⟩

/-! ## Claim C8 -/

/-- Claim C8: a coordinate string of length at least four maps to
exactly one arrow whose endpoints are the substrings at character
ranges 0..2 and 2..4 (the four castling strings are special-cased in
the source to exactly those endpoints, the visual movement of the
king); in particular e1g1 maps to the pair e1, g1 and e2e4 to the pair
e2, e4; an absent string or one shorter than four characters maps to
no arrow. -/
theorem C8_best_move_arrow (m : String) (h : 4 ≤ m.length) :
    bestMoveToArrow (some m) = [(m.take 2, (m.drop 2).take 2, arrowColor)] ∧
    bestMoveToArrow (some "e1g1") = [("e1", "g1", arrowColor)] ∧
    bestMoveToArrow (some "e2e4") = [("e2", "e4", arrowColor)] ∧
    bestMoveToArrow none = [] ∧
    (∀ mShort : String, mShort.length < 4 → bestMoveToArrow (some mShort) = []) := by
  refine ⟨?_, by decide, by decide, rfl, ?_⟩
  · simp only [bestMoveToArrow]
    rw [if_neg (by omega)]
    split
    · rename_i h1; subst h1; decide
    · split
      · rename_i h2; subst h2; decide
      · split
        · rename_i h3; subst h3; decide
        · split
          · rename_i h4; subst h4; decide
          · rfl
  · intro mShort hS
    simp only [bestMoveToArrow]
    rw [if_pos hS]

/-- Witness for C8_best_move_arrow at the knight move g1f3. -/
theorem C8_best_move_arrow_witness :
    4 ≤ ("g1f3" : String).length ∧
    bestMoveToArrow (some "g1f3") = [("g1f3".take 2, ("g1f3".drop 2).take 2, arrowColor)] :=
  ⟨by decide, (C8_best_move_arrow "g1f3" (by decide)).1⟩

/-! ## Claim C9 -/

/-- Claim C9: on a falsy position argument (absent or empty string)
both analyze and fallbackToHttp are complete no-ops: the state is
unchanged and no channel message, no fallback request and no callback
invocation is produced. -/
theorem C9_falsy_noop (s : AnalysisWebSocket) (fen : Option String)
    (http : JsonObj → Option AnalysisResult) (h : strFalsy fen = true) :
    analyze s fen http = ⟨s, [], [], []⟩ ∧
    fallbackToHttp s fen http = ⟨s, [], [], []⟩ := by
  cases fen with
  | none => exact ⟨rfl, rfl⟩
  | some f =>
    have hf : (f == "") = true := by simpa [strFalsy] using h
    simp [analyze, fallbackToHttp, hf]

/-- Witness for C9_falsy_noop at the empty string and the fresh
manager state. -/
theorem C9_falsy_noop_witness :
    strFalsy (some "") = true ∧
    analyze AnalysisWebSocket.init (some "") (fun _ => some sampleResult)
      = ⟨AnalysisWebSocket.init, [], [], []⟩ ∧
    fallbackToHttp AnalysisWebSocket.init (some "") (fun _ => some sampleResult)
      = ⟨AnalysisWebSocket.init, [], [], []⟩ := by
  have h := C9_falsy_noop AnalysisWebSocket.init (some "") (fun _ => some sampleResult) rfl
  exact ⟨rfl, h.1, h.2⟩

/-! ## Claim C10 -/

/-- Claim C10: every goToMove call, whatever its index argument,
unconditionally clears the show-best-move flag, and with that flag
cleared the arrows effect always yields an empty arrow list, clearing
the displayed arrow. -/
theorem C10_goto_hides_arrow (s : CoachState) (i : Int) (a : Option AnalysisResult) :
    (goToMove s i).showBestMove = false ∧ arrowsEffect false a = [] := by
  refine ⟨rfl, ?_⟩
  cases a <;> rfl
